import Mathlib

/-! # Client list page of the admin dashboard

A shallow embedding of `admin-dashboard/src/pages/Clients.jsx` (the `ClientList`
component): its `useState` cells become one record, every handler becomes a
function from that record to the next record together with the HTTP requests
and alerts it produced, and the outcome of each awaited call is an explicit
argument.
-/

namespace ClientList

/-! ## Data model -/

/-- Scalar values that appear in query parameters and request bodies. -/
inductive JVal where
  | str (s : String)
  | num (n : Int)
  | undef
deriving DecidableEq, Repr

/-- One HTTP request handed to axios. -/
structure Request where
  method : String
  url : String
  params : List (String × JVal)
  data : List (String × JVal)
deriving DecidableEq, Repr

/-- What a handler did besides updating the state. -/
structure Effects where
  requests : List Request
  alerts : List String
deriving DecidableEq, Repr

/-- A user record as the list endpoint returns it; `_id` is `none` when the
property is absent (`undefined`). -/
structure Client where
  _id : Option String
  name : String
  email : String
deriving DecidableEq, Repr

/-- The object held in the `currentClient` cell: `{ ...clients[index], index }`
after `handleEditClient`, `{ name, email, password }` after `handleAddClient`. -/
structure CurrentClient where
  _id : Option String
  name : String
  email : String
  password : Option String
  index : Option Int
deriving DecidableEq, Repr

/-- Body of a successful `GET /api/client` response. -/
structure ListResponse where
  clients : List Client
  totalPages : Int
deriving DecidableEq, Repr

/-- The `useState` cells of `ClientList` (lines 8-25). -/
structure PageState where
  clients : List Client
  isModalOpen : Bool
  currentClient : Option CurrentClient
  showPassword : Bool
  isPasswordModalOpen : Bool
  newPassword : String
  confirmPassword : String
  passwordError : String
  isLoading : Bool
  isSorting : Bool
  currentPage : Int
  totalPages : Int
  sortBy : String
  sortOrder : String
  nameFilter : String
  emailFilter : String
deriving DecidableEq, Repr

/-- The initial values passed to `useState`. -/
def initialState : PageState :=
  { clients := []
    isModalOpen := false
    currentClient := none
    showPassword := false
    isPasswordModalOpen := false
    newPassword := ""
    confirmPassword := ""
    passwordError := ""
    isLoading := true
    isSorting := false
    currentPage := 1
    totalPages := 1
    sortBy := "name"
    sortOrder := "asc"
    nameFilter := ""
    emailFilter := "" }

/-! ## JavaScript primitives used by the handlers -/

/-- The `.length` of a JavaScript string: the number of UTF-16 code units, so a
code point outside the basic plane counts twice. -/
def jsLength (s : String) : Nat :=
  (s.data.map fun c => if c.val.toNat < 65536 then 1 else 2).sum

/-- How a template literal renders an `_id`. -/
def idText : Option String → String
  | some v => v
  | none => "undefined"

/-- The expression `clients[i]` for a numeric `i`: `none` is `undefined`. -/
def clientAt (clients : List Client) (i : Int) : Option Client :=
  if 0 ≤ i then clients[i.toNat]? else none

/-- The expression `clients[currentClient.index]` of `handleSavePassword`:
`none` when evaluating `clients[currentClient.index]._id` would raise a
TypeError (`currentClient` is null, or the element is `undefined`). -/
def selectedClient (s : PageState) : Option Client :=
  match s.currentClient with
  | none => none
  | some cc =>
    match cc.index with
    | none => none
    | some i => clientAt s.clients i

def noEffects : Effects := ⟨[], []⟩

/-! ## Handlers -/

/-- The request built by `fetchClients` (lines 40-49). -/
def fetchClientsRequest (apiUrl : String) (s : PageState) : Request :=
  { method := "GET"
    url := apiUrl ++ "/api/client"
    params :=
      [ ("page", .num s.currentPage)
      , ("limit", .num 10)
      , ("sortBy", .str s.sortBy)
      , ("sortOrder", .str s.sortOrder)
      , ("name", .str s.nameFilter)
      , ("email", .str s.emailFilter) ]
    data := [] }

/-- The part of `fetchClients` that runs before the `await` (lines 36-49). -/
def fetchClients_begin (apiUrl : String) (s : PageState) : PageState × Effects :=
  let s1 := if !s.isSorting then { s with isLoading := true } else s
  (s1, ⟨[fetchClientsRequest apiUrl s], []⟩)

/-- The part of `fetchClients` that runs once the request has settled
(lines 50-58); `none` is a rejected request. -/
def fetchClients_resume (resp : Option ListResponse) (s : PageState) : PageState × Effects :=
  match resp with
  | some r =>
    ({ s with clients := r.clients, totalPages := r.totalPages,
              isLoading := false, isSorting := false }, noEffects)
  | none =>
    ({ s with isLoading := false, isSorting := false }, ⟨[], ["Failed to fetch clients"]⟩)

/-- The whole of `fetchClients` when nothing else runs during the `await`. -/
def fetchClients (apiUrl : String) (resp : Option ListResponse) (s : PageState) :
    PageState × Effects :=
  let b := fetchClients_begin apiUrl s
  let r := fetchClients_resume resp b.1
  (r.1, ⟨b.2.requests ++ r.2.requests, b.2.alerts ++ r.2.alerts⟩)

/-- Lines 65-73. -/
def handleSort (field : String) (s : PageState) : PageState :=
  let s1 := { s with isSorting := true }
  if field = s.sortBy then
    { s1 with sortOrder := if s.sortOrder = "asc" then "desc" else "asc" }
  else
    { s1 with sortBy := field, sortOrder := "asc" }

/-- Lines 75-77. -/
def handlePageChange (newPage : Int) (s : PageState) : PageState :=
  { s with currentPage := newPage }

/-- Lines 79-82. -/
def handleAddClient (s : PageState) : PageState :=
  { s with
    currentClient := some { _id := none, name := "", email := "", password := some "", index := none }
    isModalOpen := true }

/-- Lines 84-92. -/
def handleEditClient (index : Int) (s : PageState) : PageState × Effects :=
  if 0 ≤ index ∧ index < s.clients.length then
    match clientAt s.clients index with
    | some c =>
      ({ s with
         currentClient := some { _id := c._id, name := c.name, email := c.email,
                                 password := none, index := some index }
         isModalOpen := true }, noEffects)
    | none =>
      ({ s with
         currentClient := some { _id := none, name := "", email := "",
                                 password := none, index := some index }
         isModalOpen := true }, noEffects)
  else
    (s, ⟨[], ["Error opening edit modal"]⟩)

/-- Lines 94-110; `confirmed` is the answer of `window.confirm`, `deleteOk`
tells whether the DELETE request resolved. -/
def handleDeleteClient (apiUrl : String) (confirmed deleteOk : Bool) (id : Option String)
    (s : PageState) : PageState × Effects :=
  if confirmed then
    let req : Request :=
      { method := "DELETE"
        url := apiUrl ++ "/api/user/" ++ idText id
        params := []
        data := [("type", .str "client")] }
    if deleteOk then
      ({ s with clients := s.clients.filter (fun client => client._id != id),
                isLoading := false },
       ⟨[req], ["Client deleted successfully"]⟩)
    else
      ({ s with isLoading := false }, ⟨[req], ["Failed to delete client"]⟩)
  else
    (s, noEffects)

/-- Lines 157-159. -/
def handleChangePassword (s : PageState) : PageState :=
  { s with isPasswordModalOpen := true }

/-- Lines 161-188; `patchOk` tells whether the PATCH request resolved. -/
def handleSavePassword (apiUrl : String) (patchOk : Bool) (s : PageState) :
    PageState × Effects :=
  if s.newPassword ≠ s.confirmPassword then
    ({ s with passwordError := "Passwords don't match" }, noEffects)
  else if jsLength s.newPassword < 8 then
    ({ s with passwordError := "Password must be at least 8 characters long" }, noEffects)
  else
    match selectedClient s with
    | none =>
      ({ s with passwordError := "Failed to update password", isLoading := false },
       ⟨[], ["Failed to update password"]⟩)
    | some c =>
      let req : Request :=
        { method := "PATCH"
          url := apiUrl ++ "/api/user/update-password/" ++ idText c._id
          params := []
          data := [("newPassword", .str s.newPassword), ("type", .str "client")] }
      if patchOk then
        ({ s with isPasswordModalOpen := false, newPassword := "", confirmPassword := "",
                  passwordError := "", isLoading := false },
         ⟨[req], ["Password updated successfully"]⟩)
      else
        ({ s with passwordError := "Failed to update password", isLoading := false },
         ⟨[req], ["Failed to update password"]⟩)

/-! ## The page as a transition system

The handlers above are wired to the rendered controls (lines 216-323) and to the
effect of line 61-63, which calls `fetchClients` after every render in which one
of its dependencies changed. -/

/-- The dependency list of the effect that calls `fetchClients` (line 63). -/
def deps (s : PageState) : Int × String × String × String × String :=
  (s.currentPage, s.sortBy, s.sortOrder, s.nameFilter, s.emailFilter)

/-- Line 190, with the user context loaded: the filters, the table and the
pagination buttons are rendered unless the overlay loader replaces them. -/
def uiVisible (s : PageState) : Bool :=
  !(s.isLoading && !s.isSorting)

/-- The component state together with the list requests still in flight. -/
structure World where
  page : PageState
  pending : List Request
deriving DecidableEq, Repr

/-- What can happen to the list page: a click on a rendered control, an edit of
a filter input, or the settling of the oldest list request in flight. -/
inductive Event where
  | clickPrevious
  | clickNext
  | clickNameHeader
  | clickEmailHeader
  | editNameFilter (value : String)
  | editEmailFilter (value : String)
  | fetchResolved (response : ListResponse)
  | fetchRejected
deriving DecidableEq, Repr

/-- The render that follows a state update: the effect of lines 61-63 starts a
list request when a dependency differs from the previous render. -/
def afterRender (apiUrl : String) (old new : PageState) (pending : List Request) : World :=
  if deps new = deps old then
    ⟨new, pending⟩
  else
    ⟨(fetchClients_begin apiUrl new).1, pending ++ (fetchClients_begin apiUrl new).2.requests⟩

/-- One transition; `none` when the event cannot happen (the control is not
rendered or is disabled, or no request is in flight). -/
def step (apiUrl : String) (w : World) : Event → Option World
  | .clickPrevious =>
    if uiVisible w.page = true ∧ w.page.currentPage ≠ 1 then
      some (afterRender apiUrl w.page
        (handlePageChange (w.page.currentPage - 1) w.page) w.pending)
    else none
  | .clickNext =>
    if uiVisible w.page = true ∧ w.page.currentPage ≠ w.page.totalPages then
      some (afterRender apiUrl w.page
        (handlePageChange (w.page.currentPage + 1) w.page) w.pending)
    else none
  | .clickNameHeader =>
    if uiVisible w.page = true then
      some (afterRender apiUrl w.page (handleSort "name" w.page) w.pending)
    else none
  | .clickEmailHeader =>
    if uiVisible w.page = true then
      some (afterRender apiUrl w.page (handleSort "email" w.page) w.pending)
    else none
  | .editNameFilter value =>
    if uiVisible w.page = true then
      some (afterRender apiUrl w.page { w.page with nameFilter := value } w.pending)
    else none
  | .editEmailFilter value =>
    if uiVisible w.page = true then
      some (afterRender apiUrl w.page { w.page with emailFilter := value } w.pending)
    else none
  | .fetchResolved response =>
    match w.pending with
    | [] => none
    | _ :: rest => some ⟨(fetchClients_resume (some response) w.page).1, rest⟩
  | .fetchRejected =>
    match w.pending with
    | [] => none
    | _ :: rest => some ⟨(fetchClients_resume none w.page).1, rest⟩

/-- The component right after mounting: the effect has started the first list
request. -/
def mounted (apiUrl : String) : World :=
  ⟨(fetchClients_begin apiUrl initialState).1, (fetchClients_begin apiUrl initialState).2.requests⟩

/-- Runs a sequence of events; `none` as soon as one of them cannot happen. -/
def run (apiUrl : String) : World → List Event → Option World
  | w, [] => some w
  | w, e :: es =>
    match step apiUrl w e with
    | none => none
    | some w1 => run apiUrl w1 es

/-- The page invariant of the query state: `1 <= currentPage <= totalPages`. -/
def pageClamped (s : PageState) : Prop :=
  1 ≤ s.currentPage ∧ s.currentPage ≤ s.totalPages

instance (s : PageState) : Decidable (pageClamped s) := by
  unfold pageClamped; infer_instance

/-- The declared domain of the sort part of the query state. -/
def sortInDomain (s : PageState) : Prop :=
  (s.sortBy = "name" ∨ s.sortBy = "email") ∧ (s.sortOrder = "asc" ∨ s.sortOrder = "desc")

instance (s : PageState) : Decidable (sortInDomain s) := by
  unfold sortInDomain; infer_instance

/-! ## The list endpoint -/

/-- Integer computation of `ceil(count / limit)`. -/
def ceilDiv (count limit : Nat) : Nat :=
  (count + limit - 1) / limit

/-- Case-insensitive substring test. -/
def containsIgnoreCase (needle hay : String) : Bool :=
  decide (needle.data.map Char.toLower <:+: hay.data.map Char.toLower)

/-- A record passes when every filter that is present occurs in its field. -/
def matchesFilters (name email : String) (c : Client) : Bool :=
  (name = "" || containsIgnoreCase name c.name) &&
  (email = "" || containsIgnoreCase email c.email)

/-- The field a record is ordered by, as its sequence of characters. -/
def sortKey (sortBy : String) (c : Client) : List Char :=
  if sortBy = "email" then c.email.data else c.name.data

/-- The requested order: ascending unless `sortOrder` is `desc`. -/
def sortRecords (sortBy sortOrder : String) (l : List Client) : List Client :=
  if sortOrder = "desc" then
    l.insertionSort (fun a b => ¬ sortKey sortBy a < sortKey sortBy b)
  else
    l.insertionSort (fun a b => ¬ sortKey sortBy b < sortKey sortBy a)

/-- Modelled from the spec: the list query behind `GET /api/client`
(`routes/clients.js`, mounted by `server.js` line 42, is not among the sources).
Section 4.1: page defaults to 1 if absent or invalid, sortOrder defaults to
ascending; match name/email case-insensitively as substrings when the filters
are present, sort, skip `(page-1)*limit` records, take `limit` records, and
derive the total pages from the separate count of matching records. -/
def clientListQuery (store : List Client) (page : Option Int) (limit : Nat)
    (sortBy sortOrder name email : String) : List Client × Nat :=
  let p : Nat := match page with
    | some n => if 1 ≤ n then n.toNat else 1
    | none => 1
  let matching := store.filter (matchesFilters name email)
  let items := ((sortRecords sortBy sortOrder matching).drop ((p - 1) * limit)).take limit
  (items, ceilDiv (store.countP (matchesFilters name email)) limit)

/-! ## Sample states and traces -/

/-- The `onChange` handler of the new-password input (line 423). -/
def setNewPassword (value : String) (s : PageState) : PageState :=
  { s with newPassword := value }

/-- The `onChange` handler of the confirmation input (line 449). -/
def setConfirmPassword (value : String) (s : PageState) : PageState :=
  { s with confirmPassword := value }

def sampleApi : String := "https://api.example.test"

def alice : Client := ⟨some "c1", "Alice", "alice@example.test"⟩

def bob : Client := ⟨some "c2", "Bob", "bob@example.test"⟩

/-- The page once the first list request has returned two clients. -/
def sampleLoaded : PageState :=
  (fetchClients sampleApi (some ⟨[alice, bob], 1⟩) initialState).1

/-- The password modal opened for the first row of `sampleLoaded`. -/
def samplePasswordModal : PageState :=
  handleChangePassword (handleEditClient 0 sampleLoaded).1

/-- A confirmation that differs from the new password. -/
def sampleMismatch : PageState :=
  setConfirmPassword "correct horse" (setNewPassword "correct house" samplePasswordModal)

/-- A short password typed twice. -/
def sampleShort : PageState :=
  setConfirmPassword "abc" (setNewPassword "abc" samplePasswordModal)

/-- A short password with a different confirmation. -/
def sampleShortMismatch : PageState :=
  setConfirmPassword "abd" (setNewPassword "abc" samplePasswordModal)

/-- An acceptable password typed twice. -/
def sampleValid : PageState :=
  setConfirmPassword "correct horse" (setNewPassword "correct horse" samplePasswordModal)

/-- The page with one client while the list request started by a click on the
Name header is in flight. -/
def sampleSorting : PageState :=
  (fetchClients_begin sampleApi
    (handleSort "name" (fetchClients sampleApi (some ⟨[alice], 1⟩) initialState).1)).1

/-- The password modal is opened on the only row of `sampleSorting`; the request
in flight then returns an empty list, and an acceptable password is typed
twice. -/
def sampleStaleModal : PageState :=
  setConfirmPassword "correct horse" (setNewPassword "correct horse"
    (fetchClients_resume (some ⟨[], 0⟩)
      (handleChangePassword (handleEditClient 0 sampleSorting).1)).1)

/-- Eleven client records held by the server. -/
def sampleStore : List Client :=
  [ ⟨some "k01", "Ann", "ann@example.test"⟩
  , ⟨some "k02", "Ben", "ben@example.test"⟩
  , ⟨some "k03", "Cara", "cara@example.test"⟩
  , ⟨some "k04", "Dan", "dan@example.test"⟩
  , ⟨some "k05", "Eve", "eve@example.test"⟩
  , ⟨some "k06", "Finn", "finn@example.test"⟩
  , ⟨some "k07", "Gus", "gus@example.test"⟩
  , ⟨some "k08", "Hana", "hana@example.test"⟩
  , ⟨some "k09", "Ivy", "ivy@example.test"⟩
  , ⟨some "k10", "Jo", "jo@example.test"⟩
  , ⟨some "k11", "Kim", "kim@example.test"⟩ ]

/-- The answer of the list endpoint over `sampleStore` to a list request with
the given parameters and limit 10. -/
def sampleAnswer (page : Int) (sortBy sortOrder name email : String) : ListResponse :=
  ⟨(clientListQuery sampleStore (some page) 10 sortBy sortOrder name email).1,
   (clientListQuery sampleStore (some page) 10 sortBy sortOrder name email).2⟩

/-- The first page loads (2 pages in all), Next is clicked and page 2 loads,
then "a" is typed in the name filter and the filtered list (1 page) loads. -/
def shrinkTrace : List Event :=
  [ .fetchResolved ⟨sampleStore.take 10, 2⟩
  , .clickNext
  , .fetchResolved ⟨sampleStore.drop 10, 2⟩
  , .editNameFilter "a"
  , .fetchResolved ⟨[], 1⟩ ]

/-- The first page loads, then the Email header is clicked twice, the list
reloading in between. -/
def sortTrace : List Event :=
  [ .fetchResolved ⟨[alice, bob], 1⟩
  , .clickEmailHeader
  , .fetchResolved ⟨[alice, bob], 1⟩
  , .clickEmailHeader ]

/-- Where `sortTrace` leads. -/
def sortTraceEnd : World :=
  (run sampleApi (mounted sampleApi) sortTrace).getD (mounted sampleApi)

/-! ## Saving a client -/

/-- The keys that `{ ...currentClient }` copies into a request body, a key being
present when the object has it. -/
def spreadCurrentClient (cc : CurrentClient) : List (String × JVal) :=
  (match cc._id with
    | some v => [("_id", JVal.str v)]
    | none => []) ++
  [("name", JVal.str cc.name), ("email", JVal.str cc.email)] ++
  (match cc.password with
    | some v => [("password", JVal.str v)]
    | none => []) ++
  (match cc.index with
    | some i => [("index", JVal.num i)]
    | none => [])

/-- Truthiness of an `_id`: `undefined` and the empty string are falsy. -/
def truthyId : Option String → Bool
  | some v => v != ""
  | none => false

/-- The expression `clients[currentClient.index]?._id` (line 117). -/
def clientIdAt (clients : List Client) (i : Int) : Option String :=
  match clientAt clients i with
  | some c => c._id
  | none => none

/-- The text shown by `alert(error.message || 'Failed to save client')`. -/
def saveErrorText (message : String) : String :=
  if message = "" then "Failed to save client" else message

/-- The message of the TypeError raised by reading `currentClient.index` when
`currentClient` is null. -/
def nullIndexMessage : String := "Cannot read properties of null (reading 'index')"

/-- Lines 112-155. `patchResp` and `postResp` are the outcomes of the PATCH and
of the POST request (`.error message` is a rejected request, `.ok` carries
`response.data.user`), `listResp` the outcome of the list request of the final
`fetchClients()`; only the outcomes of the requests actually sent are read. -/
def handleSaveClient (apiUrl : String) (patchResp : Except String Client)
    (postResp : Except String (Option Client)) (listResp : Option ListResponse)
    (s : PageState) : PageState × Effects :=
  match s.currentClient with
  | none => ({ s with isLoading := false }, ⟨[], [saveErrorText nullIndexMessage]⟩)
  | some cc =>
    match cc.index with
    | some i =>
      if truthyId (clientIdAt s.clients i) = true then
        let req : Request :=
          { method := "PATCH"
            url := apiUrl ++ "/api/user/" ++ idText (clientIdAt s.clients i)
            params := []
            data := [("name", .str cc.name), ("email", .str cc.email), ("type", .str "client")] }
        match patchResp with
        | .ok user =>
          let f := fetchClients apiUrl listResp
            { s with clients := s.clients.set i.toNat user, isModalOpen := false,
                     currentClient := none, isLoading := true }
          ({ f.1 with isLoading := false },
           ⟨req :: f.2.requests, "Client updated successfully" :: f.2.alerts⟩)
        | .error message =>
          ({ s with isLoading := false }, ⟨[req], [saveErrorText message]⟩)
      else
        ({ s with isLoading := false }, ⟨[], [saveErrorText "Client ID not found"]⟩)
    | none =>
      let req : Request :=
        { method := "POST"
          url := apiUrl ++ "/api/user/signup"
          params := []
          data := spreadCurrentClient cc ++ [("type", .str "client")] }
      match postResp with
      | .ok (some newUser) =>
        if truthyId newUser._id = true then
          let f := fetchClients apiUrl listResp
            { s with clients := s.clients ++ [newUser], isModalOpen := false,
                     currentClient := none, isLoading := true }
          ({ f.1 with isLoading := false },
           ⟨req :: f.2.requests, "New client added successfully" :: f.2.alerts⟩)
        else
          ({ s with isLoading := false },
           ⟨[req], [saveErrorText "Incomplete user data received from server"]⟩)
      | .ok none =>
        ({ s with isLoading := false },
         ⟨[req], [saveErrorText "Incomplete user data received from server"]⟩)
      | .error message =>
        ({ s with isLoading := false }, ⟨[req], [saveErrorText message]⟩)

/-- The requests of a list that use the given HTTP method. -/
def requestsWith (method : String) (l : List Request) : List Request :=
  l.filter (fun r => r.method = method)

/-- The `onChange` handler of the name input of the edit modal (lines 338-340). -/
def setCurrentName (value : String) (s : PageState) : PageState :=
  { s with currentClient := s.currentClient.map (fun cc => { cc with name := value }) }

/-- The `onChange` handler of the email input of the edit modal (lines 349-351). -/
def setCurrentEmail (value : String) (s : PageState) : PageState :=
  { s with currentClient := s.currentClient.map (fun cc => { cc with email := value }) }

/-- The `onChange` handler of the password input of the add form (lines 362-364). -/
def setCurrentPassword (value : String) (s : PageState) : PageState :=
  { s with currentClient := s.currentClient.map (fun cc => { cc with password := some value }) }

/-- The edit modal opened on Alice, the first row of `sampleLoaded`. -/
def sampleEditing : PageState :=
  (handleEditClient 0 sampleLoaded).1

/-- The edit modal opened on a row whose record came without an `_id`. -/
def sampleEditingNoId : PageState :=
  (handleEditClient 0
    (fetchClients sampleApi (some ⟨[⟨none, "Carol", "carol@example.test"⟩], 1⟩) initialState).1).1

/-- The add form filled in for a new client. -/
def sampleAdding : PageState :=
  setCurrentPassword "open sesame" (setCurrentEmail "dave@example.test"
    (setCurrentName "Dave" (handleAddClient sampleLoaded)))

/-- The page shows Alice, Bob (name, ascending). The Name header is clicked,
which requests the descending order and keeps the table rendered. -/
def sampleResorting : PageState :=
  (fetchClients_begin sampleApi (handleSort "name" sampleLoaded)).1

/-- Edit is clicked on the first row of `sampleResorting` (Alice), and then the
list request in flight returns the descending order, Bob first. -/
def sampleReorderedModal : PageState :=
  (fetchClients_resume (some ⟨[bob, alice], 1⟩) (handleEditClient 0 sampleResorting).1).1

/-- Change Password is clicked in `sampleReorderedModal` and an acceptable
password is typed twice. -/
def sampleReorderedPassword : PageState :=
  setConfirmPassword "correct horse" (setNewPassword "correct horse"
    (handleChangePassword sampleReorderedModal))

end ClientList

/-! # Login form of the vendor dashboard

A shallow embedding of `handleLogin` of `vendor-dashboard/src/pages/Login.jsx`.
`loginUser` comes from the user context; what it returns is an argument. -/

namespace VendorLogin

/-- The `useState` cells of `Login` (lines 7-9). -/
structure LoginState where
  email : String
  password : String
  showPassword : Bool
deriving DecidableEq, Repr

/-- A value `loginUser` can resolve to. -/
inductive Status where
  | boolean (b : Bool)
  | number (n : Int)
  | text (s : String)
  | undefined
  | null
  | object
deriving DecidableEq, Repr

/-- What `handleLogin` did: the arguments of each `loginUser` call, the paths
passed to `navigate`, and the alerts shown. -/
structure LoginEffects where
  loginCalls : List (String × String)
  navigations : List String
  alerts : List String
deriving DecidableEq, Repr

/-- Lines 12-26; `outcome` is what `await loginUser(...)` yields, `none` when the
promise is rejected (the rest of the handler is then skipped). -/
def handleLogin (outcome : Option Status) (s : LoginState) : LoginEffects :=
  if s.email = "" ∨ s.password = "" then
    ⟨[], [], ["Please enter email and password"]⟩
  else
    match outcome with
    | none => ⟨[(s.email, s.password)], [], []⟩
    | some status =>
      if status = Status.boolean true then
        ⟨[(s.email, s.password)], ["/"], []⟩
      else
        ⟨[(s.email, s.password)], [], ["Invalid credentials or something went wrong"]⟩

def sampleLogin : LoginState := ⟨"vendor@example.test", "open sesame", false⟩

end VendorLogin

namespace ClientList

/-! ## Password change -/

theorem mismatch_ne_empty : ("Passwords don't match" : String) ≠ "" := by decide

theorem tooShort_ne_empty : ("Password must be at least 8 characters long" : String) ≠ "" := by
  decide

theorem mismatch_ne_tooShort :
    ("Passwords don't match" : String) ≠ "Password must be at least 8 characters long" := by
  decide

theorem failed_ne_tooShort :
    ("Failed to update password" : String) ≠ "Password must be at least 8 characters long" := by
  decide

theorem empty_ne_tooShort :
    ("" : String) ≠ "Password must be at least 8 characters long" := by
  decide

theorem handleSavePassword_of_ne (apiUrl : String) (patchOk : Bool) (s : PageState)
    (h : s.newPassword ≠ s.confirmPassword) :
    handleSavePassword apiUrl patchOk s =
      ({ s with passwordError := "Passwords don't match" }, noEffects) := by
  unfold handleSavePassword
  rw [if_pos h]

theorem handleSavePassword_of_short (apiUrl : String) (patchOk : Bool) (s : PageState)
    (heq : s.newPassword = s.confirmPassword) (hlen : jsLength s.newPassword < 8) :
    handleSavePassword apiUrl patchOk s =
      ({ s with passwordError := "Password must be at least 8 characters long" }, noEffects) := by
  unfold handleSavePassword
  rw [if_neg (not_not.mpr heq), if_pos hlen]

theorem handleSavePassword_of_valid (apiUrl : String) (patchOk : Bool) (s : PageState)
    (heq : s.newPassword = s.confirmPassword) (hlen : ¬ jsLength s.newPassword < 8) :
    handleSavePassword apiUrl patchOk s =
      match selectedClient s with
      | none =>
        ({ s with passwordError := "Failed to update password", isLoading := false },
         ⟨[], ["Failed to update password"]⟩)
      | some c =>
        if patchOk then
          ({ s with isPasswordModalOpen := false, newPassword := "", confirmPassword := "",
                    passwordError := "", isLoading := false },
           ⟨[⟨"PATCH", apiUrl ++ "/api/user/update-password/" ++ idText c._id, [],
              [("newPassword", .str s.newPassword), ("type", .str "client")]⟩],
            ["Password updated successfully"]⟩)
        else
          ({ s with passwordError := "Failed to update password", isLoading := false },
           ⟨[⟨"PATCH", apiUrl ++ "/api/user/update-password/" ++ idText c._id, [],
              [("newPassword", .str s.newPassword), ("type", .str "client")]⟩],
            ["Failed to update password"]⟩) := by
  unfold handleSavePassword
  rw [if_neg (not_not.mpr heq), if_neg hlen]

/-- C1: when the new password differs from its confirmation, `handleSavePassword`
sets `passwordError` to "Passwords don't match", changes nothing else, and
issues no request, so no `PATCH /api/user/update-password` is sent. -/
theorem handleSavePassword_mismatch (apiUrl : String) (patchOk : Bool) (s : PageState)
    (h : s.newPassword ≠ s.confirmPassword) :
    (handleSavePassword apiUrl patchOk s).1 = { s with passwordError := "Passwords don't match" } ∧
    (handleSavePassword apiUrl patchOk s).1.passwordError = "Passwords don't match" ∧
    (handleSavePassword apiUrl patchOk s).2.requests = [] := by
  rw [handleSavePassword_of_ne apiUrl patchOk s h]
  exact ⟨rfl, rfl, rfl⟩

/-- Witness of C1 at a state whose two password fields differ. -/
theorem handleSavePassword_mismatch_witness :
    sampleMismatch.newPassword ≠ sampleMismatch.confirmPassword ∧
    (handleSavePassword sampleApi true sampleMismatch).1.passwordError = "Passwords don't match" ∧
    (handleSavePassword sampleApi true sampleMismatch).2.requests = [] :=
  ⟨by decide, (handleSavePassword_mismatch sampleApi true sampleMismatch (by decide)).2⟩

/-- C2: when the new password has fewer than 8 characters (its `.length`),
whatever the confirmation is, `handleSavePassword` issues no request, so no
`PATCH /api/user/update-password` is sent, and `passwordError` is left
non-empty. -/
theorem handleSavePassword_short (apiUrl : String) (patchOk : Bool) (s : PageState)
    (h : jsLength s.newPassword < 8) :
    (handleSavePassword apiUrl patchOk s).2.requests = [] ∧
    (handleSavePassword apiUrl patchOk s).1.passwordError ≠ "" := by
  by_cases heq : s.newPassword = s.confirmPassword
  · rw [handleSavePassword_of_short apiUrl patchOk s heq h]
    exact ⟨rfl, tooShort_ne_empty⟩
  · rw [handleSavePassword_of_ne apiUrl patchOk s heq]
    exact ⟨rfl, mismatch_ne_empty⟩

/-- Witness of C2 at a three-character password. -/
theorem handleSavePassword_short_witness :
    jsLength sampleShort.newPassword < 8 ∧
    (handleSavePassword sampleApi true sampleShort).2.requests = [] ∧
    (handleSavePassword sampleApi true sampleShort).1.passwordError ≠ "" :=
  ⟨by decide, handleSavePassword_short sampleApi true sampleShort (by decide)⟩

/-- C3: equality is checked before length. An input that is both unequal to its
confirmation and shorter than 8 gets the mismatch error, and the resulting
`passwordError` is "Password must be at least 8 characters long" exactly when
the new password equals its confirmation and its length is under 8. -/
theorem handleSavePassword_validation_order (apiUrl : String) (patchOk : Bool) (s : PageState) :
    (s.newPassword ≠ s.confirmPassword ∧ jsLength s.newPassword < 8 →
      (handleSavePassword apiUrl patchOk s).1.passwordError = "Passwords don't match") ∧
    ((handleSavePassword apiUrl patchOk s).1.passwordError =
        "Password must be at least 8 characters long" ↔
      s.newPassword = s.confirmPassword ∧ jsLength s.newPassword < 8) := by
  by_cases heq : s.newPassword = s.confirmPassword
  · by_cases hlen : jsLength s.newPassword < 8
    · rw [handleSavePassword_of_short apiUrl patchOk s heq hlen]
      exact ⟨fun h => absurd heq h.1, fun _ => ⟨heq, hlen⟩, fun _ => rfl⟩
    · rw [handleSavePassword_of_valid apiUrl patchOk s heq hlen]
      refine ⟨fun h => absurd heq h.1, fun h => ?_, fun h => absurd h.2 hlen⟩
      exfalso
      revert h
      cases selectedClient s with
      | none => exact failed_ne_tooShort
      | some c =>
        cases patchOk
        · exact failed_ne_tooShort
        · exact empty_ne_tooShort
  · rw [handleSavePassword_of_ne apiUrl patchOk s heq]
    exact ⟨fun _ => rfl, fun h => absurd h mismatch_ne_tooShort, fun h => absurd h.1 heq⟩

/-- Witness of C3: a short password with a different confirmation is reported
as a mismatch. -/
theorem handleSavePassword_validation_order_witness :
    (sampleShortMismatch.newPassword ≠ sampleShortMismatch.confirmPassword ∧
      jsLength sampleShortMismatch.newPassword < 8) ∧
    (handleSavePassword sampleApi true sampleShortMismatch).1.passwordError =
      "Passwords don't match" :=
  ⟨by decide,
   (handleSavePassword_validation_order sampleApi true sampleShortMismatch).1 (by decide)⟩

/-- C5, as stated, fails: with an acceptable password typed twice,
`handleSavePassword` sends nothing when `clients[currentClient.index]` no longer
exists. The modal was opened on the only row while a sort request was in flight
(the table is rendered then), and that request returned an empty list; building
the URL raises, the `catch` block reports the failure and the modal stays
open. -/
theorem handleSavePassword_stale_row_sends_nothing :
    uiVisible sampleSorting = true ∧
    sampleStaleModal.newPassword = sampleStaleModal.confirmPassword ∧
    8 ≤ jsLength sampleStaleModal.newPassword ∧
    (handleSavePassword sampleApi true sampleStaleModal).2.requests = [] ∧
    (handleSavePassword sampleApi true sampleStaleModal).1.isPasswordModalOpen = true ∧
    (handleSavePassword sampleApi true sampleStaleModal).1.passwordError =
      "Failed to update password" := by
  decide

/-- C5 (amended): when the new password equals its confirmation, has length at
least 8, and `clients[currentClient.index]` exists, `handleSavePassword` issues
exactly one request, a PATCH to `/api/user/update-password/<_id of that entry>`
with body exactly `{newPassword, type: 'client'}`; if it succeeds the password
modal is closed and the three password fields are reset to the empty string, if
it fails the modal is left as it was and `passwordError` is
"Failed to update password". -/
theorem handleSavePassword_valid (apiUrl : String) (patchOk : Bool) (s : PageState) (c : Client)
    (heq : s.newPassword = s.confirmPassword) (hlen : 8 ≤ jsLength s.newPassword)
    (hsel : selectedClient s = some c) :
    (handleSavePassword apiUrl patchOk s).2.requests =
      [⟨"PATCH", apiUrl ++ "/api/user/update-password/" ++ idText c._id, [],
        [("newPassword", .str s.newPassword), ("type", .str "client")]⟩] ∧
    (patchOk = true →
      (handleSavePassword apiUrl patchOk s).1.isPasswordModalOpen = false ∧
      (handleSavePassword apiUrl patchOk s).1.newPassword = "" ∧
      (handleSavePassword apiUrl patchOk s).1.confirmPassword = "" ∧
      (handleSavePassword apiUrl patchOk s).1.passwordError = "") ∧
    (patchOk = false →
      (handleSavePassword apiUrl patchOk s).1.isPasswordModalOpen = s.isPasswordModalOpen ∧
      (handleSavePassword apiUrl patchOk s).1.passwordError = "Failed to update password") := by
  rw [handleSavePassword_of_valid apiUrl patchOk s heq (Nat.not_lt.mpr hlen), hsel]
  cases patchOk
  · exact ⟨rfl, fun h => absurd h (by decide), fun _ => ⟨rfl, rfl⟩⟩
  · exact ⟨rfl, fun _ => ⟨rfl, rfl, rfl, rfl⟩, fun h => absurd h (by decide)⟩

/-- Witness of the amended C5: the password modal opened on Alice with an
acceptable password, the request succeeding. -/
theorem handleSavePassword_valid_witness :
    (sampleValid.newPassword = sampleValid.confirmPassword ∧
      8 ≤ jsLength sampleValid.newPassword ∧ selectedClient sampleValid = some alice) ∧
    (handleSavePassword sampleApi true sampleValid).2.requests =
      [⟨"PATCH", "https://api.example.test/api/user/update-password/c1", [],
        [("newPassword", .str "correct horse"), ("type", .str "client")]⟩] ∧
    (handleSavePassword sampleApi true sampleValid).1.isPasswordModalOpen = false ∧
    (handleSavePassword sampleApi true sampleValid).1.passwordError = "" :=
  have h := handleSavePassword_valid sampleApi true sampleValid alice
    (by decide) (by decide) (by decide)
  ⟨by decide, h.1, (h.2.1 rfl).1, (h.2.1 rfl).2.2.2⟩

/-! ## Pagination and sorting -/

theorem afterRender_currentPage (apiUrl : String) (old new : PageState) (pending : List Request) :
    (afterRender apiUrl old new pending).page.currentPage = new.currentPage := by
  unfold afterRender fetchClients_begin
  split
  · rfl
  · dsimp only
    split <;> rfl

theorem afterRender_sortBy (apiUrl : String) (old new : PageState) (pending : List Request) :
    (afterRender apiUrl old new pending).page.sortBy = new.sortBy := by
  unfold afterRender fetchClients_begin
  split
  · rfl
  · dsimp only
    split <;> rfl

theorem afterRender_sortOrder (apiUrl : String) (old new : PageState) (pending : List Request) :
    (afterRender apiUrl old new pending).page.sortOrder = new.sortOrder := by
  unfold afterRender fetchClients_begin
  split
  · rfl
  · dsimp only
    split <;> rfl

theorem afterRender_sortInDomain (apiUrl : String) (old new : PageState)
    (pending : List Request) (h : sortInDomain new) :
    sortInDomain (afterRender apiUrl old new pending).page := by
  unfold sortInDomain at *
  rw [afterRender_sortBy, afterRender_sortOrder]
  exact h

/-- A click on a header always leaves the sort state in its domain. -/
theorem handleSort_sortInDomain (field : String) (s : PageState)
    (hf : field = "name" ∨ field = "email") : sortInDomain (handleSort field s) := by
  unfold handleSort sortInDomain
  by_cases h : field = s.sortBy
  · rw [if_pos h]
    refine ⟨h ▸ hf, ?_⟩
    dsimp only
    by_cases ho : s.sortOrder = "asc"
    · rw [if_pos ho]; exact Or.inr rfl
    · rw [if_neg ho]; exact Or.inl rfl
  · rw [if_neg h]
    exact ⟨hf, Or.inl rfl⟩

theorem fetchClients_resume_sort (resp : Option ListResponse) (s : PageState) :
    (fetchClients_resume resp s).1.sortBy = s.sortBy ∧
    (fetchClients_resume resp s).1.sortOrder = s.sortOrder ∧
    ((fetchClients_resume resp s).1.currentPage = s.currentPage) := by
  cases resp <;> exact ⟨rfl, rfl, rfl⟩

theorem step_sortInDomain (apiUrl : String) (w w1 : World) (e : Event)
    (hs : step apiUrl w e = some w1) (h : sortInDomain w.page) : sortInDomain w1.page := by
  cases e with
  | clickPrevious =>
    simp only [step] at hs
    split at hs
    · cases hs; exact afterRender_sortInDomain _ _ _ _ h
    · cases hs
  | clickNext =>
    simp only [step] at hs
    split at hs
    · cases hs; exact afterRender_sortInDomain _ _ _ _ h
    · cases hs
  | clickNameHeader =>
    simp only [step] at hs
    split at hs
    · cases hs
      exact afterRender_sortInDomain _ _ _ _ (handleSort_sortInDomain _ _ (Or.inl rfl))
    · cases hs
  | clickEmailHeader =>
    simp only [step] at hs
    split at hs
    · cases hs
      exact afterRender_sortInDomain _ _ _ _ (handleSort_sortInDomain _ _ (Or.inr rfl))
    · cases hs
  | editNameFilter v =>
    simp only [step] at hs
    split at hs
    · cases hs; exact afterRender_sortInDomain _ _ _ _ h
    · cases hs
  | editEmailFilter v =>
    simp only [step] at hs
    split at hs
    · cases hs; exact afterRender_sortInDomain _ _ _ _ h
    · cases hs
  | fetchResolved r =>
    simp only [step] at hs
    split at hs
    · cases hs
    · cases hs
      unfold sortInDomain at *
      rw [(fetchClients_resume_sort _ _).1, (fetchClients_resume_sort _ _).2.1]
      exact h
  | fetchRejected =>
    simp only [step] at hs
    split at hs
    · cases hs
    · cases hs
      unfold sortInDomain at *
      rw [(fetchClients_resume_sort _ _).1, (fetchClients_resume_sort _ _).2.1]
      exact h

theorem run_sortInDomain (apiUrl : String) (es : List Event) :
    ∀ w w1 : World, run apiUrl w es = some w1 → sortInDomain w.page → sortInDomain w1.page := by
  induction es with
  | nil =>
    intro w w1 hr h
    unfold run at hr
    cases hr
    exact h
  | cons e es ih =>
    intro w w1 hr h
    unfold run at hr
    cases hstep : step apiUrl w e with
    | none => rw [hstep] at hr; cases hr
    | some w2 =>
      rw [hstep] at hr
      exact ih w2 w1 hr (step_sortInDomain apiUrl w w2 e hstep h)

theorem foldl_handleSort_sortInDomain (fields : List String)
    (hf : ∀ f ∈ fields, f = "name" ∨ f = "email") :
    ∀ s : PageState, sortInDomain s →
      sortInDomain (fields.foldl (fun s f => handleSort f s) s) := by
  induction fields with
  | nil => intro s h; exact h
  | cons f fs ih =>
    intro s _
    rw [List.foldl_cons]
    exact ih (fun g hg => hf g (List.mem_cons_of_mem _ hg)) _
      (handleSort_sortInDomain f s (hf f (List.mem_cons_self _ _)))

theorem mounted_sortInDomain (apiUrl : String) : sortInDomain (mounted apiUrl).page := by
  unfold sortInDomain
  exact ⟨Or.inl rfl, Or.inl rfl⟩

/-- C10: the sort part of the query state stays in its domain. Starting from the
initial state, any sequence of `handleSort('name')` / `handleSort('email')`
calls, and any run of the page (header clicks interleaved with the other
controls and with list requests settling), ends with `sortBy` in
{name, email} and `sortOrder` in {asc, desc}. -/
theorem sort_state_in_domain (apiUrl : String) (fields : List String) (es : List Event)
    (w : World) (hf : ∀ f ∈ fields, f = "name" ∨ f = "email")
    (hr : run apiUrl (mounted apiUrl) es = some w) :
    sortInDomain (fields.foldl (fun s f => handleSort f s) initialState) ∧
    sortInDomain w.page :=
  ⟨foldl_handleSort_sortInDomain fields hf initialState ⟨Or.inl rfl, Or.inl rfl⟩,
   run_sortInDomain apiUrl es (mounted apiUrl) w hr (mounted_sortInDomain apiUrl)⟩

/-- Witness of C10: three header clicks, and a run with two clicks on Email. -/
theorem sort_state_in_domain_witness :
    ((∀ f ∈ ["email", "email", "name"], f = "name" ∨ f = "email") ∧
      run sampleApi (mounted sampleApi) sortTrace = some sortTraceEnd) ∧
    (sortTraceEnd.page.sortBy = "email" ∧ sortTraceEnd.page.sortOrder = "desc") ∧
    sortInDomain (["email", "email", "name"].foldl (fun s f => handleSort f s) initialState) ∧
    sortInDomain sortTraceEnd.page :=
  ⟨by decide, by decide,
   sort_state_in_domain sampleApi ["email", "email", "name"] sortTrace sortTraceEnd
     (by decide) (by decide)⟩

theorem step_one_le_currentPage (apiUrl : String) (w w1 : World) (e : Event)
    (hs : step apiUrl w e = some w1) (h : 1 ≤ w.page.currentPage) :
    1 ≤ w1.page.currentPage := by
  cases e with
  | clickPrevious =>
    simp only [step] at hs
    split at hs
    · rename_i hc
      cases hs
      rw [afterRender_currentPage]
      have hne := hc.2
      show 1 ≤ w.page.currentPage - 1
      omega
    · cases hs
  | clickNext =>
    simp only [step] at hs
    split at hs
    · cases hs
      rw [afterRender_currentPage]
      show 1 ≤ w.page.currentPage + 1
      omega
    · cases hs
  | clickNameHeader =>
    simp only [step] at hs
    split at hs
    · cases hs
      rw [afterRender_currentPage]
      unfold handleSort
      split <;> exact h
    · cases hs
  | clickEmailHeader =>
    simp only [step] at hs
    split at hs
    · cases hs
      rw [afterRender_currentPage]
      unfold handleSort
      split <;> exact h
    · cases hs
  | editNameFilter v =>
    simp only [step] at hs
    split at hs
    · cases hs; rw [afterRender_currentPage]; exact h
    · cases hs
  | editEmailFilter v =>
    simp only [step] at hs
    split at hs
    · cases hs; rw [afterRender_currentPage]; exact h
    · cases hs
  | fetchResolved r =>
    simp only [step] at hs
    split at hs
    · cases hs
    · cases hs
      rw [(fetchClients_resume_sort _ _).2.2]
      exact h
  | fetchRejected =>
    simp only [step] at hs
    split at hs
    · cases hs
    · cases hs
      rw [(fetchClients_resume_sort _ _).2.2]
      exact h

/-- The lower half of the page invariant does hold in every run of the page. -/
theorem run_one_le_currentPage (apiUrl : String) (es : List Event) :
    ∀ w w1 : World, run apiUrl w es = some w1 → 1 ≤ w.page.currentPage →
      1 ≤ w1.page.currentPage := by
  induction es with
  | nil =>
    intro w w1 hr h
    unfold run at hr
    cases hr
    exact h
  | cons e es ih =>
    intro w w1 hr h
    unfold run at hr
    cases hstep : step apiUrl w e with
    | none => rw [hstep] at hr; cases hr
    | some w2 =>
      rw [hstep] at hr
      exact ih w2 w1 hr (step_one_le_currentPage apiUrl w w2 e hstep h)

/-- C4: the upper half of `1 <= currentPage <= totalPages` is lost in a run of
the page. Over a store of eleven clients the first page loads (2 pages), Next
leads to page 2, and typing "a" in the name filter reloads the list with 1
page in all while `currentPage` stays 2; Next is then still enabled and leads
to page 3. Every response of the run is the answer of the list endpoint to the
request in flight. -/
theorem currentPage_exceeds_totalPages :
    (run sampleApi (mounted sampleApi) shrinkTrace).map
        (fun w => (w.page.currentPage, w.page.totalPages)) = some (2, 1) ∧
    (run sampleApi (mounted sampleApi) shrinkTrace).map
        (fun w => decide (pageClamped w.page)) = some false ∧
    (run sampleApi (mounted sampleApi) (shrinkTrace ++ [.clickNext])).map
        (fun w => (w.page.currentPage, w.page.totalPages)) = some (3, 1) ∧
    sampleAnswer 1 "name" "asc" "" "" = ⟨sampleStore.take 10, 2⟩ ∧
    sampleAnswer 2 "name" "asc" "" "" = ⟨sampleStore.drop 10, 2⟩ ∧
    sampleAnswer 2 "name" "asc" "a" "" = ⟨[], 1⟩ := by
  decide

/-! ## List requests -/

/-- C6: the request built by `fetchClients` is a GET to `/api/client` whose
parameters are exactly page, limit, sortBy, sortOrder, name and email, with
limit 10 and the other five taken from the current `currentPage`, `sortBy`,
`sortOrder`, `nameFilter` and `emailFilter`; when the request succeeds,
`clients` and `totalPages` become the fields of the response. -/
theorem fetchClients_request_and_result (apiUrl : String) (s s1 : PageState)
    (r : ListResponse) (resp : Option ListResponse) :
    (fetchClients_begin apiUrl s).2.requests =
      [⟨"GET", apiUrl ++ "/api/client",
        [ ("page", .num s.currentPage), ("limit", .num 10), ("sortBy", .str s.sortBy),
          ("sortOrder", .str s.sortOrder), ("name", .str s.nameFilter),
          ("email", .str s.emailFilter) ], []⟩] ∧
    (fetchClients apiUrl resp s).2.requests = (fetchClients_begin apiUrl s).2.requests ∧
    ((fetchClients_resume (some r) s1).1.clients = r.clients ∧
      (fetchClients_resume (some r) s1).1.totalPages = r.totalPages) ∧
    ((fetchClients apiUrl (some r) s).1.clients = r.clients ∧
      (fetchClients apiUrl (some r) s).1.totalPages = r.totalPages) := by
  refine ⟨rfl, ?_, ⟨rfl, rfl⟩, ⟨rfl, rfl⟩⟩
  cases resp <;> rfl

/-- C8: the first list request of the page carries page 1, sortBy name,
sortOrder asc and empty filters (with limit 10), and `handleSort` on a field
other than the current `sortBy` selects that field in ascending order whatever
the previous direction was. -/
theorem first_request_and_sort_defaults (apiUrl field : String) (s : PageState)
    (h : field ≠ s.sortBy) :
    (mounted apiUrl).pending =
      [⟨"GET", apiUrl ++ "/api/client",
        [ ("page", .num 1), ("limit", .num 10), ("sortBy", .str "name"),
          ("sortOrder", .str "asc"), ("name", .str ""), ("email", .str "") ], []⟩] ∧
    (handleSort field s).sortBy = field ∧
    (handleSort field s).sortOrder = "asc" := by
  refine ⟨rfl, ?_⟩
  unfold handleSort
  rw [if_neg h]
  exact ⟨rfl, rfl⟩

/-- Witness of C8: the list is sorted by name, descending, and the Email header
is clicked. -/
theorem first_request_and_sort_defaults_witness :
    ("email" ≠ (handleSort "name" sampleLoaded).sortBy ∧
      (handleSort "name" sampleLoaded).sortOrder = "desc") ∧
    (mounted sampleApi).pending =
      [⟨"GET", sampleApi ++ "/api/client",
        [ ("page", .num 1), ("limit", .num 10), ("sortBy", .str "name"),
          ("sortOrder", .str "asc"), ("name", .str ""), ("email", .str "") ], []⟩] ∧
    (handleSort "email" (handleSort "name" sampleLoaded)).sortBy = "email" ∧
    (handleSort "email" (handleSort "name" sampleLoaded)).sortOrder = "asc" :=
  ⟨by decide,
   first_request_and_sort_defaults sampleApi "email" (handleSort "name" sampleLoaded)
     (by decide)⟩

/-! ## Total pages of the list endpoint -/

theorem ceilDiv_eq_ceil (count limit : Nat) (hl : 0 < limit) :
    ceilDiv count limit = ⌈(count : ℚ) / (limit : ℚ)⌉₊ := by
  have hq : (0 : ℚ) < (limit : ℚ) := by exact_mod_cast hl
  apply eq_of_forall_ge_iff
  intro c
  rw [Nat.ceil_le, div_le_iff₀ hq]
  unfold ceilDiv
  rw [Nat.div_le_iff_le_mul_add_pred hl]
  have hcast : ((count : ℚ) ≤ (c : ℚ) * (limit : ℚ)) ↔ count ≤ c * limit := by
    exact_mod_cast Iff.rfl
  rw [hcast, Nat.mul_comm c limit]
  generalize limit * c = m
  omega

/-- C7: for every name and email filter (and every page and sort order), the
`totalPages` returned by the list query is the ceiling of the number of records
matching the filters divided by the page size. -/
theorem clientListQuery_totalPages (store : List Client) (page : Option Int) (limit : Nat)
    (sortBy sortOrder name email : String) (hl : 0 < limit) :
    (clientListQuery store page limit sortBy sortOrder name email).2 =
      ⌈(((store.filter (matchesFilters name email)).length : ℕ) : ℚ) / (limit : ℚ)⌉₊ := by
  unfold clientListQuery
  dsimp only
  rw [ceilDiv_eq_ceil _ _ hl, List.countP_eq_length_filter]

/-- Witness of C7: four of the eleven sample records contain "a" in their name,
which makes one page of 10. -/
theorem clientListQuery_totalPages_witness :
    (0 < 10 ∧ (sampleStore.filter (matchesFilters "a" "")).length = 4) ∧
    (clientListQuery sampleStore (some 2) 10 "name" "asc" "a" "").2 = 1 ∧
    (clientListQuery sampleStore (some 2) 10 "name" "asc" "a" "").2 =
      ⌈(((sampleStore.filter (matchesFilters "a" "")).length : ℕ) : ℚ) / ((10 : ℕ) : ℚ)⌉₊ :=
  ⟨by decide, by decide,
   clientListQuery_totalPages sampleStore (some 2) 10 "name" "asc" "a" "" (by decide)⟩

/-! ## Deleting a client -/

/-- C9: `handleDeleteClient(id)`. When the DELETE request (to `/api/user/<id>`
with body `{type: 'client'}`) fails, the list is unchanged and the only alert is
the failure one; when it succeeds, the new list is the old one without the
entries whose `_id` equals `id`, the others in their original order; when the
confirmation is declined, nothing is sent and the state is unchanged. -/
theorem handleDeleteClient_outcomes (apiUrl : String) (id : Option String) (s : PageState)
    (deleteOk : Bool) :
    ((handleDeleteClient apiUrl true false id s).2.requests =
        [⟨"DELETE", apiUrl ++ "/api/user/" ++ idText id, [], [("type", .str "client")]⟩] ∧
      (handleDeleteClient apiUrl true false id s).1.clients = s.clients ∧
      (handleDeleteClient apiUrl true false id s).2.alerts = ["Failed to delete client"] ∧
      "Client deleted successfully" ∉ (handleDeleteClient apiUrl true false id s).2.alerts) ∧
    ((handleDeleteClient apiUrl true true id s).2.requests =
        [⟨"DELETE", apiUrl ++ "/api/user/" ++ idText id, [], [("type", .str "client")]⟩] ∧
      (handleDeleteClient apiUrl true true id s).1.clients =
        s.clients.filter (fun c => decide (c._id ≠ id)) ∧
      List.Sublist (handleDeleteClient apiUrl true true id s).1.clients s.clients ∧
      (∀ c, c ∈ (handleDeleteClient apiUrl true true id s).1.clients ↔
        c ∈ s.clients ∧ c._id ≠ id)) ∧
    ((handleDeleteClient apiUrl false deleteOk id s).2.requests = [] ∧
      (handleDeleteClient apiUrl false deleteOk id s).2.alerts = [] ∧
      (handleDeleteClient apiUrl false deleteOk id s).1 = s) := by
  refine ⟨⟨rfl, rfl, rfl, by simp [handleDeleteClient]⟩, ⟨rfl, ?_, ?_, ?_⟩, ⟨rfl, rfl, rfl⟩⟩
  · show s.clients.filter (fun client => client._id != id) =
      s.clients.filter (fun c => decide (c._id ≠ id))
    congr 1
    funext c
    by_cases h : c._id = id
    · simp [h]
    · simp [h]
  · simp only [handleDeleteClient, if_true]
    exact List.filter_sublist _
  · intro c
    simp [handleDeleteClient]

/-! ## Saving a client -/

theorem fetchClients_requests (apiUrl : String) (resp : Option ListResponse) (s : PageState) :
    (fetchClients apiUrl resp s).2.requests = [fetchClientsRequest apiUrl s] := by
  cases resp <;> rfl

theorem requestsWith_patch_get (apiUrl : String) (req : Request) (s : PageState)
    (h : req.method = "PATCH") :
    requestsWith "PATCH" [req, fetchClientsRequest apiUrl s] = [req] ∧
    requestsWith "POST" [req, fetchClientsRequest apiUrl s] = [] := by
  have hget : (fetchClientsRequest apiUrl s).method = "GET" := rfl
  unfold requestsWith
  simp [List.filter, h, hget]

theorem requestsWith_post_get (apiUrl : String) (req : Request) (s : PageState)
    (h : req.method = "POST") :
    requestsWith "POST" [req, fetchClientsRequest apiUrl s] = [req] ∧
    requestsWith "PATCH" [req, fetchClientsRequest apiUrl s] = [] := by
  have hget : (fetchClientsRequest apiUrl s).method = "GET" := rfl
  unfold requestsWith
  simp [List.filter, h, hget]

theorem requestsWith_single (req : Request) :
    (req.method = "PATCH" →
      requestsWith "PATCH" [req] = [req] ∧ requestsWith "POST" [req] = []) ∧
    (req.method = "POST" →
      requestsWith "POST" [req] = [req] ∧ requestsWith "PATCH" [req] = []) := by
  unfold requestsWith
  constructor <;> intro h <;> simp [List.filter, h]

theorem clientIdAt_of_some (clients : List Client) (i : Int) (c : Client)
    (h : clientAt clients i = some c) : clientIdAt clients i = c._id := by
  unfold clientIdAt
  rw [h]

theorem truthyId_of_ne_empty (id : String) (h : id ≠ "") : truthyId (some id) = true := by
  unfold truthyId
  simp [h]

/-- The update branch of `handleSaveClient`: the requests it sends. -/
theorem handleSaveClient_update_requests (apiUrl : String) (patchResp : Except String Client)
    (postResp : Except String (Option Client)) (listResp : Option ListResponse)
    (s : PageState) (cc : CurrentClient) (i : Int)
    (hcc : s.currentClient = some cc) (hi : cc.index = some i)
    (ht : truthyId (clientIdAt s.clients i) = true) :
    requestsWith "PATCH" (handleSaveClient apiUrl patchResp postResp listResp s).2.requests =
      [⟨"PATCH", apiUrl ++ "/api/user/" ++ idText (clientIdAt s.clients i), [],
        [("name", .str cc.name), ("email", .str cc.email), ("type", .str "client")]⟩] ∧
    requestsWith "POST" (handleSaveClient apiUrl patchResp postResp listResp s).2.requests = [] := by
  unfold handleSaveClient
  rw [hcc]
  dsimp only
  rw [hi]
  dsimp only
  rw [if_pos ht]
  cases patchResp with
  | error message => exact (requestsWith_single _).1 rfl
  | ok user =>
    dsimp only
    rw [fetchClients_requests]
    exact requestsWith_patch_get apiUrl _ _ rfl

/-- The add branch of `handleSaveClient`: the requests it sends. -/
theorem handleSaveClient_add_requests (apiUrl : String) (patchResp : Except String Client)
    (postResp : Except String (Option Client)) (listResp : Option ListResponse)
    (s : PageState) (cc : CurrentClient)
    (hcc : s.currentClient = some cc) (hi : cc.index = none) :
    requestsWith "POST" (handleSaveClient apiUrl patchResp postResp listResp s).2.requests =
      [⟨"POST", apiUrl ++ "/api/user/signup", [],
        spreadCurrentClient cc ++ [("type", .str "client")]⟩] ∧
    requestsWith "PATCH" (handleSaveClient apiUrl patchResp postResp listResp s).2.requests = [] := by
  unfold handleSaveClient
  rw [hcc]
  dsimp only
  rw [hi]
  dsimp only
  cases postResp with
  | error message => exact (requestsWith_single _).2 rfl
  | ok user =>
    cases user with
    | none => exact (requestsWith_single _).2 rfl
    | some newUser =>
      dsimp only
      by_cases ht : truthyId newUser._id = true
      · rw [if_pos ht]
        dsimp only
        rw [fetchClients_requests]
        exact requestsWith_post_get apiUrl _ _ rfl
      · rw [if_neg ht]
        exact (requestsWith_single _).2 rfl

/-- The branch of `handleSaveClient` that finds no client id. -/
theorem handleSaveClient_no_id (apiUrl : String) (patchResp : Except String Client)
    (postResp : Except String (Option Client)) (listResp : Option ListResponse)
    (s : PageState) (cc : CurrentClient) (i : Int)
    (hcc : s.currentClient = some cc) (hi : cc.index = some i)
    (ht : truthyId (clientIdAt s.clients i) = false) :
    handleSaveClient apiUrl patchResp postResp listResp s =
      ({ s with isLoading := false }, ⟨[], ["Client ID not found"]⟩) := by
  unfold handleSaveClient
  rw [hcc]
  dsimp only
  rw [hi]
  dsimp only
  rw [if_neg (by rw [ht]; decide)]
  rfl

/-- C11: `handleSaveClient` dispatches on `currentClient.index`. When it is
defined and `clients[index]` has a (non-empty) `_id`, exactly one PATCH is sent,
to `/api/user/<that _id>` with body exactly `{name, email, type: 'client'}`, and
no POST. When it is defined but `clients[index]` is missing or has no `_id`,
nothing is sent, the alert is "Client ID not found" and the modal stays as it
was. When it is undefined, exactly one POST is sent, to `/api/user/signup` with
the fields of `currentClient` plus `type: 'client'` (for the add form: name,
email, password, type), and no PATCH. -/
theorem handleSaveClient_dispatch (apiUrl : String) (patchResp : Except String Client)
    (postResp : Except String (Option Client)) (listResp : Option ListResponse)
    (s : PageState) (cc : CurrentClient) (hcc : s.currentClient = some cc) :
    (∀ i c id, cc.index = some i → clientAt s.clients i = some c → c._id = some id → id ≠ "" →
      requestsWith "PATCH" (handleSaveClient apiUrl patchResp postResp listResp s).2.requests =
        [⟨"PATCH", apiUrl ++ "/api/user/" ++ id, [],
          [("name", .str cc.name), ("email", .str cc.email), ("type", .str "client")]⟩] ∧
      requestsWith "POST" (handleSaveClient apiUrl patchResp postResp listResp s).2.requests
        = []) ∧
    (∀ i, cc.index = some i →
      (∀ c, clientAt s.clients i = some c → c._id = none ∨ c._id = some "") →
      (handleSaveClient apiUrl patchResp postResp listResp s).2.requests = [] ∧
      (handleSaveClient apiUrl patchResp postResp listResp s).2.alerts =
        ["Client ID not found"] ∧
      (handleSaveClient apiUrl patchResp postResp listResp s).1.isModalOpen = s.isModalOpen ∧
      (handleSaveClient apiUrl patchResp postResp listResp s).1.currentClient =
        s.currentClient) ∧
    (cc.index = none →
      requestsWith "POST" (handleSaveClient apiUrl patchResp postResp listResp s).2.requests =
        [⟨"POST", apiUrl ++ "/api/user/signup", [],
          spreadCurrentClient cc ++ [("type", .str "client")]⟩] ∧
      requestsWith "PATCH" (handleSaveClient apiUrl patchResp postResp listResp s).2.requests
        = [] ∧
      (∀ p, cc._id = none → cc.password = some p →
        spreadCurrentClient cc ++ [("type", .str "client")] =
          [("name", .str cc.name), ("email", .str cc.email), ("password", .str p),
           ("type", .str "client")])) := by
  refine ⟨?_, ?_, ?_⟩
  · intro i c id hi hc hid hne
    have hidAt : clientIdAt s.clients i = some id := by
      rw [clientIdAt_of_some _ _ _ hc, hid]
    have ht : truthyId (clientIdAt s.clients i) = true := by
      rw [hidAt]; exact truthyId_of_ne_empty id hne
    have h := handleSaveClient_update_requests apiUrl patchResp postResp listResp s cc i hcc hi ht
    rw [hidAt] at h
    exact h
  · intro i hi hno
    have ht : truthyId (clientIdAt s.clients i) = false := by
      unfold clientIdAt
      cases hc : clientAt s.clients i with
      | none => rfl
      | some c =>
        dsimp only
        cases hno c hc with
        | inl h => rw [h]; rfl
        | inr h => rw [h]; rfl
    rw [handleSaveClient_no_id apiUrl patchResp postResp listResp s cc i hcc hi ht]
    exact ⟨rfl, rfl, rfl, rfl⟩
  · intro hi
    have h := handleSaveClient_add_requests apiUrl patchResp postResp listResp s cc hcc hi
    refine ⟨h.1, h.2, ?_⟩
    intro pw hid hp
    unfold spreadCurrentClient
    rw [hid, hp, hi]
    rfl

/-- Witness of C11: Save in the edit modal opened on Alice, in the edit modal
opened on a row without `_id`, and in the filled-in add form. -/
theorem handleSaveClient_dispatch_witness :
    (sampleEditing.currentClient =
        some ⟨some "c1", "Alice", "alice@example.test", none, some 0⟩ ∧
      clientAt sampleEditing.clients 0 = some alice ∧
      sampleAdding.currentClient =
        some ⟨none, "Dave", "dave@example.test", some "open sesame", none⟩) ∧
    (requestsWith "PATCH"
        (handleSaveClient sampleApi (.error "Network Error") (.ok none) none
          sampleEditing).2.requests =
        [⟨"PATCH", sampleApi ++ "/api/user/" ++ "c1", [],
          [("name", .str "Alice"), ("email", .str "alice@example.test"),
           ("type", .str "client")]⟩] ∧
      requestsWith "POST"
        (handleSaveClient sampleApi (.error "Network Error") (.ok none) none
          sampleEditing).2.requests = []) ∧
    (handleSaveClient sampleApi (.ok alice) (.ok none) none sampleEditingNoId).2.requests = [] ∧
    requestsWith "POST"
        (handleSaveClient sampleApi (.ok alice) (.ok none) none sampleAdding).2.requests =
      [⟨"POST", sampleApi ++ "/api/user/signup", [],
        [("name", .str "Dave"), ("email", .str "dave@example.test"),
         ("password", .str "open sesame"), ("type", .str "client")]⟩] :=
  ⟨by decide,
   (handleSaveClient_dispatch sampleApi (.error "Network Error") (.ok none) none sampleEditing
      ⟨some "c1", "Alice", "alice@example.test", none, some 0⟩ (by decide)).1
      0 alice "c1" rfl (by decide) rfl (by decide),
   ((handleSaveClient_dispatch sampleApi (.ok alice) (.ok none) none sampleEditingNoId
      ⟨none, "Carol", "carol@example.test", none, some 0⟩ (by decide)).2.1
      0 rfl (by decide)).1,
   ((handleSaveClient_dispatch sampleApi (.ok alice) (.ok none) none sampleAdding
      ⟨none, "Dave", "dave@example.test", some "open sesame", none⟩ (by decide)).2.2
      rfl).1⟩

/-! ## The client behind the edit modal -/

theorem clientAt_of_in_range (clients : List Client) (index : Int)
    (h : 0 ≤ index ∧ index < clients.length) :
    ∃ c, clientAt clients index = some c ∧ clients[index.toNat]? = some c := by
  have hlt : index.toNat < clients.length := by omega
  refine ⟨clients[index.toNat], ?_, List.getElem?_eq_getElem hlt⟩
  unfold clientAt
  rw [if_pos h.1]
  exact List.getElem?_eq_getElem hlt

/-- Right after `handleEditClient`, the row the modal points at is the client
it shows. -/
theorem handleEditClient_selected (index : Int) (s : PageState)
    (h : 0 ≤ index ∧ index < s.clients.length) :
    ∃ c, selectedClient (handleEditClient index s).1 = some c ∧
      ((handleEditClient index s).1.currentClient.map fun cc => cc._id) = some c._id := by
  obtain ⟨c, hc, _⟩ := clientAt_of_in_range s.clients index h
  refine ⟨c, ?_, ?_⟩
  · unfold handleEditClient
    rw [if_pos h, hc]
    unfold selectedClient
    exact hc
  · unfold handleEditClient
    rw [if_pos h, hc]
    rfl

/-- C12: the edit modal can target another client than the one it was opened
for. The table shows Alice, Bob; the Name header is clicked (the table stays
rendered while the reordered list is requested), Edit is clicked on the first
row, Alice, and the request then returns Bob, Alice, which is the answer of the
list endpoint for the descending order. `currentClient._id` is still Alice's
`c1`, but `clients[currentClient.index]._id` is Bob's `c2`: Save sends Alice's
name and email to `/api/user/c2`, and Save Password sends the new password to
`/api/user/update-password/c2`. -/
theorem edit_modal_targets_other_client :
    uiVisible sampleResorting = true ∧
    (clientListQuery [alice, bob] (some 1) 10 "name" "desc" "" "").1 = [bob, alice] ∧
    sampleReorderedModal.isModalOpen = true ∧
    (sampleReorderedModal.currentClient.map fun cc => cc._id) = some (some "c1") ∧
    ((selectedClient sampleReorderedModal).map fun c => c._id) = some (some "c2") ∧
    requestsWith "PATCH"
        (handleSaveClient sampleApi (.ok alice) (.ok none) (some ⟨[bob, alice], 1⟩)
          sampleReorderedModal).2.requests =
      [⟨"PATCH", "https://api.example.test/api/user/c2", [],
        [("name", .str "Alice"), ("email", .str "alice@example.test"),
         ("type", .str "client")]⟩] ∧
    (handleSavePassword sampleApi true sampleReorderedPassword).2.requests =
      [⟨"PATCH", "https://api.example.test/api/user/update-password/c2", [],
        [("newPassword", .str "correct horse"), ("type", .str "client")]⟩] := by
  decide

/-! ## Sorting on the current column -/

/-- C13: `handleSort` on the column already sorted on, in a state whose
`sortOrder` is asc or desc, keeps `sortBy` and flips `sortOrder` (besides it
only raises the `isSorting` flag), so that two such calls restore the original
`sortBy` and `sortOrder`. -/
theorem handleSort_same_field (s : PageState)
    (h : s.sortOrder = "asc" ∨ s.sortOrder = "desc") :
    handleSort s.sortBy s =
      { s with isSorting := true,
               sortOrder := if s.sortOrder = "asc" then "desc" else "asc" } ∧
    (handleSort s.sortBy s).sortBy = s.sortBy ∧
    (s.sortOrder = "asc" → (handleSort s.sortBy s).sortOrder = "desc") ∧
    (s.sortOrder = "desc" → (handleSort s.sortBy s).sortOrder = "asc") ∧
    (handleSort s.sortBy (handleSort s.sortBy s)).sortBy = s.sortBy ∧
    (handleSort s.sortBy (handleSort s.sortBy s)).sortOrder = s.sortOrder := by
  have h1 : handleSort s.sortBy s =
      { s with isSorting := true,
               sortOrder := if s.sortOrder = "asc" then "desc" else "asc" } := by
    unfold handleSort
    rw [if_pos rfl]
  have h2 : ∀ t : PageState, t.sortBy = s.sortBy →
      (handleSort s.sortBy t).sortBy = s.sortBy ∧
      (handleSort s.sortBy t).sortOrder = if t.sortOrder = "asc" then "desc" else "asc" := by
    intro t ht
    unfold handleSort
    rw [if_pos ht.symm]
    exact ⟨ht, rfl⟩
  have hs := h2 s rfl
  have ht := h2 (handleSort s.sortBy s) hs.1
  refine ⟨h1, hs.1, ?_, ?_, ht.1, ?_⟩
  · intro ha
    rw [hs.2, if_pos ha]
  · intro hd
    rw [hs.2, if_neg (by rw [hd]; decide)]
  · rw [ht.2, hs.2]
    cases h with
    | inl ha => rw [ha]; decide
    | inr hd => rw [hd]; decide

/-- Witness of C13: the Name header clicked twice on the freshly loaded list. -/
theorem handleSort_same_field_witness :
    (sampleLoaded.sortOrder = "asc" ∨ sampleLoaded.sortOrder = "desc") ∧
    (handleSort sampleLoaded.sortBy sampleLoaded).sortOrder = "desc" ∧
    (handleSort sampleLoaded.sortBy (handleSort sampleLoaded.sortBy sampleLoaded)).sortBy =
      sampleLoaded.sortBy ∧
    (handleSort sampleLoaded.sortBy (handleSort sampleLoaded.sortBy sampleLoaded)).sortOrder =
      sampleLoaded.sortOrder :=
  have h := handleSort_same_field sampleLoaded (by decide)
  ⟨by decide, h.2.2.1 (by decide), h.2.2.2.2.1, h.2.2.2.2.2⟩

/-! ## Opening the edit modal -/

/-- C14: `handleEditClient(index)`, for an integer `index`. When
`0 <= index < clients.length` the entry `clients[index]` exists, the modal is
opened and `currentClient` holds its fields plus the index; for every other
index the state, `isModalOpen` and `currentClient` included, is unchanged and
only the error alert is shown. So the modal is opened by the call exactly when
the index is in range. -/
theorem handleEditClient_in_range (index : Int) (s : PageState) :
    (0 ≤ index ∧ index < s.clients.length →
      ∃ c, s.clients[index.toNat]? = some c ∧
        (handleEditClient index s).1 =
          { s with currentClient := some ⟨c._id, c.name, c.email, none, some index⟩,
                   isModalOpen := true } ∧
        (handleEditClient index s).2.alerts = []) ∧
    (¬ (0 ≤ index ∧ index < s.clients.length) →
      (handleEditClient index s).1 = s ∧
      (handleEditClient index s).1.isModalOpen = s.isModalOpen ∧
      (handleEditClient index s).1.currentClient = s.currentClient ∧
      (handleEditClient index s).2.alerts = ["Error opening edit modal"]) := by
  constructor
  · intro h
    obtain ⟨c, hc, hget⟩ := clientAt_of_in_range s.clients index h
    refine ⟨c, hget, ?_, ?_⟩
    · unfold handleEditClient
      rw [if_pos h, hc]
    · unfold handleEditClient
      rw [if_pos h, hc]
      rfl
  · intro h
    unfold handleEditClient
    rw [if_neg h]
    exact ⟨rfl, rfl, rfl, rfl⟩

/-- Witness of C14: on the two-row list, index 1 opens the modal on Bob, and
the indices 2 and -1 change nothing. -/
theorem handleEditClient_in_range_witness :
    ((0 : Int) ≤ 1 ∧ (1 : Int) < sampleLoaded.clients.length) ∧
    (¬ ((0 : Int) ≤ 2 ∧ (2 : Int) < sampleLoaded.clients.length)) ∧
    (¬ ((0 : Int) ≤ -1 ∧ (-1 : Int) < sampleLoaded.clients.length)) ∧
    (∃ c, sampleLoaded.clients[(1 : Int).toNat]? = some c ∧
      (handleEditClient 1 sampleLoaded).1 =
        { sampleLoaded with
            currentClient := some ⟨c._id, c.name, c.email, none, some 1⟩,
            isModalOpen := true } ∧
      (handleEditClient 1 sampleLoaded).2.alerts = []) ∧
    (handleEditClient 1 sampleLoaded).1.currentClient =
      some ⟨some "c2", "Bob", "bob@example.test", none, some 1⟩ ∧
    (handleEditClient 2 sampleLoaded).1 = sampleLoaded ∧
    (handleEditClient (-1) sampleLoaded).1 = sampleLoaded :=
  ⟨by decide, by decide, by decide,
   (handleEditClient_in_range 1 sampleLoaded).1 (by decide),
   by decide,
   ((handleEditClient_in_range 2 sampleLoaded).2 (by decide)).1,
   ((handleEditClient_in_range (-1) sampleLoaded).2 (by decide)).1⟩

end ClientList

namespace VendorLogin

/-! ## Login -/

/-- C15: `handleLogin` calls `loginUser` exactly when email and password are
both non-empty, once and with exactly that email and password; it navigates,
to `/`, exactly when `loginUser` was called and resolved to the boolean `true`,
and not at all when a field is empty or `loginUser` yields anything else. -/
theorem handleLogin_calls_and_navigates (outcome : Option Status) (s : LoginState) :
    ((handleLogin outcome s).loginCalls =
      if s.email ≠ "" ∧ s.password ≠ "" then [(s.email, s.password)] else []) ∧
    ((handleLogin outcome s).navigations =
      if (s.email ≠ "" ∧ s.password ≠ "") ∧ outcome = some (Status.boolean true)
      then ["/"] else []) ∧
    ((handleLogin outcome s).navigations ≠ [] →
      (handleLogin outcome s).loginCalls = [(s.email, s.password)] ∧
      outcome = some (Status.boolean true)) ∧
    (s.email = "" ∨ s.password = "" ∨ outcome ≠ some (Status.boolean true) →
      (handleLogin outcome s).navigations = []) := by
  have hnav : (handleLogin outcome s).navigations =
      if (s.email ≠ "" ∧ s.password ≠ "") ∧ outcome = some (Status.boolean true)
      then ["/"] else [] := by
    unfold handleLogin
    by_cases he : s.email = "" ∨ s.password = ""
    · rw [if_pos he, if_neg (fun h => by cases he with
        | inl h1 => exact h.1.1 h1
        | inr h2 => exact h.1.2 h2)]
    · rw [if_neg he]
      have hne : s.email ≠ "" ∧ s.password ≠ "" := not_or.mp he
      cases outcome with
      | none => rw [if_neg (fun h => by cases h.2)]
      | some status =>
        dsimp only
        by_cases hst : status = Status.boolean true
        · rw [if_pos hst, if_pos ⟨hne, by rw [hst]⟩]
        · rw [if_neg hst, if_neg (fun h => hst (Option.some.inj h.2))]
  have hcalls : (handleLogin outcome s).loginCalls =
      if s.email ≠ "" ∧ s.password ≠ "" then [(s.email, s.password)] else [] := by
    unfold handleLogin
    by_cases he : s.email = "" ∨ s.password = ""
    · rw [if_pos he, if_neg (fun h => by cases he with
        | inl h1 => exact h.1 h1
        | inr h2 => exact h.2 h2)]
    · rw [if_neg he, if_pos (not_or.mp he)]
      cases outcome with
      | none => rfl
      | some status =>
        dsimp only
        split <;> rfl
  refine ⟨hcalls, hnav, ?_, ?_⟩
  · intro hn
    rw [hnav] at hn
    by_cases hc : (s.email ≠ "" ∧ s.password ≠ "") ∧ outcome = some (Status.boolean true)
    · rw [hcalls, if_pos hc.1]
      exact ⟨rfl, hc.2⟩
    · rw [if_neg hc] at hn
      exact absurd rfl hn
  · intro h
    rw [hnav, if_neg]
    intro hc
    rcases h with h | h | h
    · exact hc.1.1 h
    · exact hc.1.2 h
    · exact h hc.2

/-- Witness of C15: a filled-in form navigates when `loginUser` resolves to
`true`, and does not when it resolves to the string "true" or when the
password is empty. -/
theorem handleLogin_calls_and_navigates_witness :
    (handleLogin (some (Status.boolean true)) sampleLogin).navigations ≠ [] ∧
    ((handleLogin (some (Status.boolean true)) sampleLogin).loginCalls =
        [("vendor@example.test", "open sesame")] ∧
      some (Status.boolean true) = some (Status.boolean true)) ∧
    (handleLogin (some (Status.text "true")) sampleLogin).navigations = [] ∧
    (handleLogin (some (Status.boolean true)) ⟨"vendor@example.test", "", false⟩).loginCalls
      = [] :=
  ⟨by decide,
   (handleLogin_calls_and_navigates (some (Status.boolean true)) sampleLogin).2.2.1 (by decide),
   (handleLogin_calls_and_navigates (some (Status.text "true")) sampleLogin).2.2.2
     (Or.inr (Or.inr (by decide))),
   by decide⟩

end VendorLogin
